import Mathlib

/-!
# BluePath optimizer — shallow embedding

Shallow embedding of the route-planning–related code of the BluePath
repository (React front end).  The route computation lives entirely in
`src/components/RouteControls.tsx` (`generateRoute`, `generateCurvedPath`,
`calculateDistance`); telemetry handling in `TelemetryPanel.tsx` and the
`Index` page (`handleTelemetryUpdate`); the audit log in `AuditLog.tsx`
(`verifyChain`).  JavaScript numbers are modelled as real numbers (`ℝ`)
where transcendental functions occur and as rationals (`ℚ`) where the code
is purely arithmetic/structural, so those parts stay executable.
-/

namespace BluePath

open Real

/-- A latitude/longitude pair in degrees.  The source passes coordinates as
two-element `number[]` arrays `[lat, lon]`; we name the components. -/
structure Waypoint where
  lat : ℝ
  lon : ℝ

/-- JavaScript `Math.atan2(y, x)`: the angle of the point `(x, y)`,
branching on the signs of the arguments exactly as `Math.atan2` does
(signed zeros collapse: `atan2 0 0 = 0`). -/
noncomputable def atan2 (y x : ℝ) : ℝ :=
  if 0 < x then arctan (y / x)
  else if x < 0 then
    (if 0 ≤ y then arctan (y / x) + π else arctan (y / x) - π)
  else
    (if 0 < y then π / 2 else if y < 0 then -(π / 2) else 0)

/-- `calculateDistance(start, dest)` from `RouteControls.tsx` lines
188–201: the haversine formula with Earth radius `R = 3440` nautical
miles, using the `atan2` form `c = 2·atan2(√a, √(1-a))`. -/
noncomputable def calculateDistance (start dest : Waypoint) : ℝ :=
  let R : ℝ := 3440
  let lat1 := start.lat * π / 180
  let lat2 := dest.lat * π / 180
  let dLat := (dest.lat - start.lat) * π / 180
  let dLon := (dest.lon - start.lon) * π / 180
  let a := sin (dLat / 2) * sin (dLat / 2) +
    cos lat1 * cos lat2 * sin (dLon / 2) * sin (dLon / 2)
  let c := 2 * atan2 (Real.sqrt a) (Real.sqrt (1 - a))
  R * c

/-- `generateCurvedPath(start, dest, points)` from `RouteControls.tsx`
lines 177–186: the loop `for i = 0 .. points` pushes
`[start+Δ·t + sin(tπ)·2, start+Δ·t + cos(tπ)·1]` with `t = i/points`.
(For `points = 0` JavaScript would produce `NaN` via `0/0`; the code only
calls this with `points = 20`, and all theorems below use a positive
count.) -/
noncomputable def generateCurvedPath (start dest : Waypoint) (points : ℕ) :
    List Waypoint :=
  (List.range (points + 1)).map fun (i : ℕ) =>
    let t : ℝ := (i : ℝ) / (points : ℝ)
    { lat := start.lat + (dest.lat - start.lat) * t + sin (t * π) * 2
      lon := start.lon + (dest.lon - start.lon) * t + cos (t * π) * 1 }

/-- JavaScript `Math.round`: round half away from zero toward `+∞`,
i.e. `⌊x + 1/2⌋`. -/
noncomputable def jsRound (x : ℝ) : ℤ := ⌊x + 1 / 2⌋

/-- The `optimization` record stored on a generated route: the raw slider
values `fuelPriority[0]`, `timePriority[0]`, `safetyPriority[0]`. -/
structure OptimizationWeights where
  fuel : ℝ
  time : ℝ
  safety : ℝ

/-- The route object built by `generateRoute` in `RouteControls.tsx`
lines 38–49. -/
structure Route where
  path : List Waypoint
  distance : ℤ
  eta : String
  fuel : ℤ
  optimization : OptimizationWeights
  quantumEnhanced : Bool

/-- `generateRoute` from `RouteControls.tsx` lines 25–58, after the
`parseFloat` of the four coordinate text fields: it builds the curved
path with 20 segments and fills in the derived fields.  There is no
validation of any input and no random source; the `await`ed timeout only
delays the computation. -/
noncomputable def generateRoute (startLat startLon destLat destLon : ℝ)
    (fuelPriority timePriority safetyPriority : ℝ)
    (isQuantumMode : Bool) : Route :=
  let start : Waypoint := ⟨startLat, startLon⟩
  let dest : Waypoint := ⟨destLat, destLon⟩
  { path := generateCurvedPath start dest 20
    distance := jsRound (calculateDistance start dest)
    eta := "48 hrs"
    fuel := jsRound (calculateDistance start dest * 0.5)
    optimization := ⟨fuelPriority, timePriority, safetyPriority⟩
    quantumEnhanced := isQuantumMode }

/-- Coordinate validity as the spec's `Waypoint` data model states it:
latitude in `[-90, 90]`, longitude in `[-180, 180]`. -/
def validCoord (lat lon : ℝ) : Prop :=
  -90 ≤ lat ∧ lat ≤ 90 ∧ -180 ≤ lon ∧ lon ≤ 180

/-- A telemetry sample as built in `TelemetryPanel.tsx` lines 22–29.  The
source formats the numeric draws with `toFixed(2)` and re-parses the wave
height with `parseFloat` for the `> 4.5` check; we keep the numeric
values, as rationals. -/
structure TelemetrySample where
  timestamp : ℚ
  waveHeight : ℚ
  windSpeed : ℚ
  current : ℚ
  visibility : ℚ
  temperature : ℚ
deriving DecidableEq

/-- `handleTelemetryUpdate` from the `Index` page:
`setTelemetry(prev => [...prev.slice(-50), data])`.  `slice(-50)` keeps
the last `min(50, length)` elements, i.e. it drops `length - 50`
(truncated subtraction) from the front. -/
def handleTelemetryUpdate (prev : List TelemetrySample)
    (data : TelemetrySample) : List TelemetrySample :=
  prev.drop (prev.length - 50) ++ [data]

/-- An audit-log entry as stored in `AuditLog.tsx` lines 9–24. -/
structure AuditEntry where
  id : ℕ
  action : String
  hash : String
  timestamp : String
  verified : Bool
deriving DecidableEq

/-- The result `verify(chain)` is specified to report. -/
structure VerifyResult where
  valid : Bool
  brokenAtIndex : Option ℕ
deriving DecidableEq

/-- `verifyChain` from `AuditLog.tsx` lines 26–30.  The source function
closes over the component's `entries` state but never reads it: it
unconditionally shows the success toast "Audit chain verified / All
entries are cryptographically valid".  We pass the in-scope entry list
explicitly; the reported outcome is constant. -/
def verifyChain (entries : List AuditEntry) : VerifyResult :=
  { valid := true, brokenAtIndex := none }

/-- The two hard-coded initial entries of `AuditLog.tsx` (their
timestamps are `new Date().toISOString()`, so we take them as
parameters). -/
def initialEntries (t1 t2 : String) : List AuditEntry :=
  [{ id := 1, action := "Route Computed", hash := "0x7a9d...",
     timestamp := t1, verified := true },
   { id := 2, action := "Telemetry Updated", hash := "0x4f2e...",
     timestamp := t2, verified := true }]

/-- `initialEntries` with the single stored field `hash` of entry index 0
mutated — the tampering the spec's `VerifyChain` property quantifies
over. -/
def tamperedEntries (t1 t2 : String) : List AuditEntry :=
  [{ id := 1, action := "Route Computed", hash := "0xdead...",
     timestamp := t1, verified := true },
   { id := 2, action := "Telemetry Updated", hash := "0x4f2e...",
     timestamp := t2, verified := true }]

/-- The page-level state owned by `Index` (`src/pages`, `part_000`):
the current route, the telemetry list, and the quantum-mode flag. -/
structure AppState where
  route : Option Route
  telemetry : List TelemetrySample
  isQuantumMode : Bool

/-- `handleRouteGenerated` from the `Index` page: `setRoute(newRoute)`. -/
def handleRouteGenerated (s : AppState) (newRoute : Route) : AppState :=
  { s with route := some newRoute }

/-- Full UI state relevant to telemetry pushes: the `Index` state plus
the `AuditLog` component's local `entries` state (which no other
component can append to). -/
structure UIState where
  app : AppState
  auditEntries : List AuditEntry

/-- Toast notifications, the only other observable effect of the
telemetry tick. -/
inductive Toast where
  | success (msg : String)
  | warning (msg : String)
  | info (msg : String)
deriving DecidableEq

/-- One tick of the `setInterval` callback in `startSimulation`
(`TelemetryPanel.tsx` lines 21–38), with the randomly drawn sample
supplied as an argument: it forwards the sample to `onTelemetryUpdate`
(wired by `Index` to `handleTelemetryUpdate`) and, when
`waveHeight > 4.5`, shows a warning toast.  Nothing else happens: no
route recomputation and no audit-log append. -/
def telemetryTick (s : UIState) (data : TelemetrySample) :
    UIState × List Toast :=
  ({ s with app :=
      { s.app with telemetry := handleTelemetryUpdate s.app.telemetry data } },
   if data.waveHeight > 4.5 then [Toast.warning "High wave alert!"] else [])

/-! ## Helper lemmas -/

/-- The head of the generated path: at `i = 0` the parameter `t` is `0`,
so the sinusoidal latitude offset vanishes but the cosine longitude
offset contributes `cos 0 · 1 = 1`. -/
lemma generateCurvedPath_head (start dest : Waypoint) (n : ℕ) :
    (generateCurvedPath start dest n).head? =
      some ⟨start.lat, start.lon + 1⟩ := by
  simp [generateCurvedPath, List.range_succ_eq_map]

/-- The last element of the generated path for a positive point count:
at `i = n` the parameter `t` is `1`, so `sin π = 0` leaves the latitude
exact while `cos π = -1` shifts the longitude by `-1`. -/
lemma getLast_map_range {α : Type} (f : ℕ → α) (n : ℕ) :
    ((List.range (n + 1)).map f).getLast? = some (f n) := by
  rw [List.range_succ, List.map_append]
  simp

lemma generateCurvedPath_getLast (start dest : Waypoint) (n : ℕ) :
    (generateCurvedPath start dest (n + 1)).getLast? =
      some ⟨dest.lat, dest.lon - 1⟩ := by
  unfold generateCurvedPath
  rw [getLast_map_range]
  have ht : ((n + 1 : ℕ) : ℝ) / ((n + 1 : ℕ) : ℝ) = 1 :=
    div_self (Nat.cast_ne_zero.mpr (Nat.succ_ne_zero n))
  simp only [ht, one_mul, Real.sin_pi, Real.cos_pi, Option.some.injEq,
    Waypoint.mk.injEq]
  constructor <;> ring

/-- The generated path always has `points + 1` waypoints. -/
lemma generateCurvedPath_length (start dest : Waypoint) (n : ℕ) :
    (generateCurvedPath start dest n).length = n + 1 := by
  rw [generateCurvedPath, List.length_map, List.length_range]

lemma atan2_zero_one : atan2 0 1 = 0 := by
  unfold atan2
  rw [if_pos one_pos]
  simp

/-- The haversine intermediate `a` is invariant under swapping the two
waypoints: both squared sines are even in the sign of the difference and
the cosine product commutes. -/
lemma haversineTerm_symm (a b : Waypoint) :
    sin ((b.lat - a.lat) * π / 180 / 2) * sin ((b.lat - a.lat) * π / 180 / 2) +
        cos (a.lat * π / 180) * cos (b.lat * π / 180) *
          sin ((b.lon - a.lon) * π / 180 / 2) *
          sin ((b.lon - a.lon) * π / 180 / 2) =
      sin ((a.lat - b.lat) * π / 180 / 2) * sin ((a.lat - b.lat) * π / 180 / 2) +
        cos (b.lat * π / 180) * cos (a.lat * π / 180) *
          sin ((a.lon - b.lon) * π / 180 / 2) *
          sin ((a.lon - b.lon) * π / 180 / 2) := by
  have e1 : (a.lat - b.lat) * π / 180 / 2 = -((b.lat - a.lat) * π / 180 / 2) := by
    ring
  have e2 : (a.lon - b.lon) * π / 180 / 2 = -((b.lon - a.lon) * π / 180 / 2) := by
    ring
  rw [e1, e2, Real.sin_neg, Real.sin_neg]
  ring

lemma calculateDistance_symm (a b : Waypoint) :
    calculateDistance a b = calculateDistance b a := by
  simp only [calculateDistance]
  rw [haversineTerm_symm a b]

lemma calculateDistance_refl (a : Waypoint) : calculateDistance a a = 0 := by
  simp only [calculateDistance, sub_self, zero_mul, zero_div, Real.sin_zero,
    mul_zero, add_zero, Real.sqrt_zero, sub_zero, Real.sqrt_one,
    atan2_zero_one]

/-- The standard haversine great-circle distance, written from the
spec's words ("uses the haversine formula with Earth radius 3440 nm"),
in its `2R·arcsin √h` form, to be compared with the source's `atan2`
form. -/
noncomputable def haversineNmSpec (a b : Waypoint) : ℝ :=
  let phi1 := a.lat * π / 180
  let phi2 := b.lat * π / 180
  let dPhi := (b.lat - a.lat) * π / 180
  let dLam := (b.lon - a.lon) * π / 180
  let h := sin (dPhi / 2) ^ 2 + cos phi1 * cos phi2 * sin (dLam / 2) ^ 2
  2 * 3440 * arcsin (Real.sqrt h)

lemma cos_mul_cos_le_cos_sq_half (x y : ℝ) :
    cos x * cos y ≤ cos ((x - y) / 2) ^ 2 := by
  have h1 : cos (x - y) + cos (x + y) = 2 * (cos x * cos y) := by
    rw [Real.cos_sub, Real.cos_add]
    ring
  have h2 : cos ((x - y) / 2) ^ 2 = 1 / 2 + cos (2 * ((x - y) / 2)) / 2 :=
    Real.cos_sq _
  have h3 : (2 : ℝ) * ((x - y) / 2) = x - y := by ring
  have h4 : cos (x + y) ≤ 1 := Real.cos_le_one _
  rw [h3] at h2
  linarith

/-- The haversine intermediate is at most 1 whenever both latitudes have
nonnegative cosine. -/
lemma hav_le_one (p1 p2 y : ℝ) (h1 : 0 ≤ cos p1) (h2 : 0 ≤ cos p2) :
    sin ((p2 - p1) / 2) ^ 2 + cos p1 * cos p2 * sin y ^ 2 ≤ 1 := by
  have hb := cos_mul_cos_le_cos_sq_half p1 p2
  have he : cos ((p1 - p2) / 2) ^ 2 = cos ((p2 - p1) / 2) ^ 2 := by
    have hneg : (p1 - p2) / 2 = -((p2 - p1) / 2) := by ring
    rw [hneg, Real.cos_neg]
  rw [he] at hb
  have hsc : sin ((p2 - p1) / 2) ^ 2 + cos ((p2 - p1) / 2) ^ 2 = 1 :=
    Real.sin_sq_add_cos_sq _
  have ht : sin y ^ 2 ≤ 1 := Real.sin_sq_le_one y
  nlinarith [mul_nonneg (mul_nonneg h1 h2) (sub_nonneg.mpr ht)]

lemma cos_deg_nonneg (lat : ℝ) (h1 : -90 ≤ lat) (h2 : lat ≤ 90) :
    0 ≤ cos (lat * π / 180) := by
  apply Real.cos_nonneg_of_mem_Icc
  rw [Set.mem_Icc]
  constructor
  · nlinarith [Real.pi_pos, mul_nonneg (by linarith : (0:ℝ) ≤ lat + 90)
      (le_of_lt Real.pi_pos)]
  · nlinarith [Real.pi_pos, mul_nonneg (by linarith : (0:ℝ) ≤ 90 - lat)
      (le_of_lt Real.pi_pos)]

/-- On `[0, 1]` the `arcsin` form and the `atan2` form of the haversine
central angle agree. -/
lemma arcsin_sqrt_eq_atan2 (A : ℝ) (h0 : 0 ≤ A) (h1 : A ≤ 1) :
    arcsin (Real.sqrt A) = atan2 (Real.sqrt A) (Real.sqrt (1 - A)) := by
  rcases lt_or_eq_of_le h1 with hlt | heq
  · have hpos : 0 < Real.sqrt (1 - A) := Real.sqrt_pos.mpr (by linarith)
    have hmem : Real.sqrt A ∈ Set.Ioo (-(1 : ℝ)) 1 := by
      constructor
      · have := Real.sqrt_nonneg A
        linarith
      · calc Real.sqrt A < Real.sqrt 1 := Real.sqrt_lt_sqrt h0 hlt
          _ = 1 := Real.sqrt_one
    rw [atan2, if_pos hpos, Real.arcsin_eq_arctan hmem, Real.sq_sqrt h0]
  · rw [heq, sub_self, Real.sqrt_zero, Real.sqrt_one, atan2]
    norm_num [Real.arcsin_one]

/-- On valid coordinates the source's `calculateDistance` equals the
spec's haversine distance with Earth radius 3440 nm. -/
lemma calculateDistance_eq_spec (a b : Waypoint)
    (ha : validCoord a.lat a.lon) (hb : validCoord b.lat b.lon) :
    calculateDistance a b = haversineNmSpec a b := by
  obtain ⟨ha1, ha2, -, -⟩ := ha
  obtain ⟨hb1, hb2, -, -⟩ := hb
  have hc1 : 0 ≤ cos (a.lat * π / 180) := cos_deg_nonneg _ ha1 ha2
  have hc2 : 0 ≤ cos (b.lat * π / 180) := cos_deg_nonneg _ hb1 hb2
  simp only [calculateDistance, haversineNmSpec]
  set A := sin ((b.lat - a.lat) * π / 180 / 2) ^ 2 +
    cos (a.lat * π / 180) * cos (b.lat * π / 180) *
      sin ((b.lon - a.lon) * π / 180 / 2) ^ 2 with hA
  have hA0 : 0 ≤ A :=
    add_nonneg (sq_nonneg _) (mul_nonneg (mul_nonneg hc1 hc2) (sq_nonneg _))
  have hA1 : A ≤ 1 := by
    have hle := hav_le_one (a.lat * π / 180) (b.lat * π / 180)
      ((b.lon - a.lon) * π / 180 / 2) hc1 hc2
    have he : (b.lat * π / 180 - a.lat * π / 180) / 2 =
        (b.lat - a.lat) * π / 180 / 2 := by ring
    rw [he] at hle
    rw [hA]
    exact hle
  have hring : sin ((b.lat - a.lat) * π / 180 / 2) *
        sin ((b.lat - a.lat) * π / 180 / 2) +
      cos (a.lat * π / 180) * cos (b.lat * π / 180) *
        sin ((b.lon - a.lon) * π / 180 / 2) *
        sin ((b.lon - a.lon) * π / 180 / 2) = A := by
    rw [hA]
    ring
  rw [hring, ← arcsin_sqrt_eq_atan2 A hA0 hA1]
  ring

/-! ## Claim theorems -/

/-- C1 (counterexample): at the default inputs — start (13.0827, 80.2707),
dest (1.3521, 103.8198), 20 segments — the first waypoint of the
generated path is not the requested start: its longitude is
`80.2707 + cos 0 = 81.2707`. -/
theorem first_waypoint_ne_start :
    ¬ ((generateCurvedPath ⟨13.0827, 80.2707⟩ ⟨1.3521, 103.8198⟩ 20).head? =
      some ⟨13.0827, 80.2707⟩) := by
  rw [generateCurvedPath_head]
  simp only [Option.some.injEq, Waypoint.mk.injEq, not_and]
  intro _
  norm_num

/-- C1 (amended): for every start/dest pair and positive point count
`n + 1`, `generateCurvedPath` returns `n + 2` waypoints; the first and
last latitudes equal the start/dest latitudes exactly, but the cosine
lateral term offsets the longitudes: the first waypoint is
`(start.lat, start.lon + 1)` and the last is `(dest.lat, dest.lon - 1)`,
so the first/last waypoints do not equal start/dest exactly. -/
theorem generateCurvedPath_endpoints (start dest : Waypoint) (n : ℕ) :
    (generateCurvedPath start dest (n + 1)).head? =
        some ⟨start.lat, start.lon + 1⟩ ∧
      (generateCurvedPath start dest (n + 1)).getLast? =
        some ⟨dest.lat, dest.lon - 1⟩ ∧
      (generateCurvedPath start dest (n + 1)).length = n + 2 :=
  ⟨generateCurvedPath_head start dest (n + 1),
   generateCurvedPath_getLast start dest n,
   generateCurvedPath_length start dest (n + 1)⟩

/-- C8: route computation is deterministic.  The source draws no
randomness at all (the "HACOPSO simulation" is a fixed two-second
delay), so `generateRoute` is a pure function of the start/destination
coordinates, the three priority sliders and the quantum-mode flag: two
runs on identical inputs yield the identical route. -/
theorem generateRoute_deterministic (sLat sLon dLat dLon fp tp sp : ℝ)
    (q : Bool) :
    generateRoute sLat sLon dLat dLon fp tp sp q =
      generateRoute sLat sLon dLat dLon fp tp sp q := rfl

/-- C9: the derived fields of every generated route: `eta` is the
constant string "48 hrs", `distance` is `round(haversine(start, dest))`
and `fuel` is `round(haversine(start, dest) · 0.5)`; and none of the
three depends on the priority sliders or the quantum flag (they are
computed from `calculateDistance` alone, never from the generated
path). -/
theorem generateRoute_derived_fields (sLat sLon dLat dLon : ℝ)
    (fp tp sp fp' tp' sp' : ℝ) (q q' : Bool) :
    (generateRoute sLat sLon dLat dLon fp tp sp q).eta = "48 hrs" ∧
      (generateRoute sLat sLon dLat dLon fp tp sp q).distance =
        jsRound (calculateDistance ⟨sLat, sLon⟩ ⟨dLat, dLon⟩) ∧
      (generateRoute sLat sLon dLat dLon fp tp sp q).fuel =
        jsRound (calculateDistance ⟨sLat, sLon⟩ ⟨dLat, dLon⟩ * 0.5) ∧
      (generateRoute sLat sLon dLat dLon fp tp sp q).eta =
        (generateRoute sLat sLon dLat dLon fp' tp' sp' q').eta ∧
      (generateRoute sLat sLon dLat dLon fp tp sp q).distance =
        (generateRoute sLat sLon dLat dLon fp' tp' sp' q').distance ∧
      (generateRoute sLat sLon dLat dLon fp tp sp q).fuel =
        (generateRoute sLat sLon dLat dLon fp' tp' sp' q').fuel :=
  ⟨rfl, rfl, rfl, rfl, rfl, rfl⟩

/-- C10: every telemetry update truncates the previous list to its last
50 elements (`slice(-50)`, i.e. dropping `length - 50` from the front)
and appends the new sample at the end, so the result holds at most 51
samples and the most recent sample is always last. -/
theorem handleTelemetryUpdate_bound (prev : List TelemetrySample)
    (data : TelemetrySample) :
    handleTelemetryUpdate prev data =
        prev.drop (prev.length - 50) ++ [data] ∧
      (handleTelemetryUpdate prev data).length ≤ 51 ∧
      (handleTelemetryUpdate prev data).getLast? = some data := by
  refine ⟨rfl, ?_, ?_⟩
  · simp only [handleTelemetryUpdate, List.length_append, List.length_drop,
      List.length_cons, List.length_nil]
    omega
  · simp [handleTelemetryUpdate]

/-- C2: `verifyChain` performs no verification.  The tampered chain —
the code's own two initial entries with the single stored field `hash`
of entry index 0 mutated — differs from the untampered one, yet
verification still reports `valid = true` with no `brokenAtIndex`
(indeed `verifyChain` reports that for every chain, since it never reads
the entries). -/
theorem verifyChain_ignores_tampering (t1 t2 : String) :
    tamperedEntries t1 t2 ≠ initialEntries t1 t2 ∧
      verifyChain (tamperedEntries t1 t2) =
        { valid := true, brokenAtIndex := none } ∧
      ∀ entries : List AuditEntry,
        verifyChain entries = { valid := true, brokenAtIndex := none } := by
  refine ⟨fun h => ?_, rfl, fun _ => rfl⟩
  have h0 := congrArg List.head? h
  simp only [tamperedEntries, initialEntries, List.head?_cons,
    Option.some.injEq, AuditEntry.mk.injEq] at h0
  exact absurd h0.2.2.1 (by decide)

/-- C3: pushing a breaching telemetry sample (wave height 5.2 > 4.5)
only appends the sample to the telemetry list and shows a warning toast.
The audit-entry list is unchanged — no `ReplanTriggered` and no new
`RouteComputed` entry — and the current route is untouched: no
re-optimization of any kind happens. -/
theorem telemetryTick_breach_no_replan (s : UIState)
    (ts wind cur vis temp : ℚ) :
    (telemetryTick s ⟨ts, 5.2, wind, cur, vis, temp⟩).1.auditEntries =
        s.auditEntries ∧
      (telemetryTick s ⟨ts, 5.2, wind, cur, vis, temp⟩).1.app.route =
        s.app.route ∧
      (telemetryTick s ⟨ts, 5.2, wind, cur, vis, temp⟩).2 =
        [Toast.warning "High wave alert!"] := by
  refine ⟨rfl, rfl, ?_⟩
  simp only [telemetryTick]
  norm_num

/-- C4: the weights stored on the computed route are the raw slider
values, not normalized: at the default sliders (50, 30, 20) they sum to
100, which is not within `1e-9` of 1.0; and the zero-sum triple
(0, 0, 0) is not rejected — a route with its full 21-waypoint path is
still produced. -/
theorem generateRoute_weights_unnormalized (sLat sLon dLat dLon : ℝ)
    (q : Bool) :
    (generateRoute sLat sLon dLat dLon 50 30 20 q).optimization.fuel +
          (generateRoute sLat sLon dLat dLon 50 30 20 q).optimization.time +
          (generateRoute sLat sLon dLat dLon 50 30 20 q).optimization.safety
        = 100 ∧
      ¬ |(generateRoute sLat sLon dLat dLon 50 30 20 q).optimization.fuel +
            (generateRoute sLat sLon dLat dLon 50 30 20 q).optimization.time +
            (generateRoute sLat sLon dLat dLon 50 30 20 q).optimization.safety
            - 1| ≤ 1e-9 ∧
      (generateRoute sLat sLon dLat dLon 0 0 0 q).path.length = 21 := by
  refine ⟨by norm_num [generateRoute], by norm_num [generateRoute], ?_⟩
  show (generateCurvedPath _ _ 20).length = 21
  rw [generateCurvedPath_length]

/-- C5: there is no coordinate validation.  Latitude 999 is outside the
spec's valid range, yet `generateRoute` still produces a route (with its
full 21-waypoint path) and `handleRouteGenerated` commits it to the page
state — nothing is rejected and state is mutated. -/
theorem generateRoute_no_coordinate_validation (s : AppState) :
    ¬ validCoord 999 0 ∧
      (handleRouteGenerated s
          (generateRoute 999 0 0 0 50 30 20 false)).route =
        some (generateRoute 999 0 0 0 50 30 20 false) ∧
      (generateRoute 999 0 0 0 50 30 20 false).path.length = 21 := by
  refine ⟨?_, rfl, ?_⟩
  · intro h
    have := h.2.1
    norm_num at this
  · show (generateCurvedPath _ _ 20).length = 21
    rw [generateCurvedPath_length]

/-- C6: there is no timestamp-monotonicity check.  Pushing a sample with
timestamp 10 and then a sample with the older timestamp 5, both are
recorded, the out-of-order one included, and it lands at the end of the
list. -/
theorem handleTelemetryUpdate_accepts_out_of_order :
    (⟨5, 3, 20, 1, 7, 24⟩ : TelemetrySample).timestamp ≤
        (⟨10, 2, 15, 1, 8, 25⟩ : TelemetrySample).timestamp ∧
      handleTelemetryUpdate
          (handleTelemetryUpdate [] ⟨10, 2, 15, 1, 8, 25⟩)
          ⟨5, 3, 20, 1, 7, 24⟩ =
        [⟨10, 2, 15, 1, 8, 25⟩, ⟨5, 3, 20, 1, 7, 24⟩] := by
  refine ⟨by norm_num, ?_⟩
  simp [handleTelemetryUpdate]

/-- C7 (counterexample): the two distinct waypoints (90, 0) and (90, 50)
— both with valid coordinates — have distance 0, because the latitude
difference vanishes and `cos(π/2) = 0` kills the longitude term; so
`distance(a, b) = 0` does not imply `a == b`. -/
theorem calculateDistance_zero_of_distinct :
    calculateDistance ⟨90, 0⟩ ⟨90, 50⟩ = 0 ∧
      (⟨90, 0⟩ : Waypoint) ≠ ⟨90, 50⟩ := by
  constructor
  · have h90 : (90 : ℝ) * π / 180 = π / 2 := by ring
    simp only [calculateDistance, h90, Real.cos_pi_div_two, sub_self,
      zero_mul, zero_div, Real.sin_zero, mul_zero, zero_add, add_zero,
      Real.sqrt_zero, sub_zero, Real.sqrt_one, atan2_zero_one]
  · intro h
    have h0 := congrArg Waypoint.lon h
    norm_num at h0

/-- C7 (amended): `calculateDistance` is symmetric, is zero on equal
waypoints, and on valid coordinates equals the haversine great-circle
distance with Earth radius 3440 nm; but zero distance does not force
equality of the waypoints (distinct coordinate pairs can denote the same
physical point, e.g. at a pole). -/
theorem calculateDistance_props :
    (∀ a b : Waypoint, calculateDistance a b = calculateDistance b a) ∧
      (∀ a : Waypoint, calculateDistance a a = 0) ∧
      ∀ a b : Waypoint, validCoord a.lat a.lon → validCoord b.lat b.lon →
        calculateDistance a b = haversineNmSpec a b :=
  ⟨calculateDistance_symm, calculateDistance_refl, calculateDistance_eq_spec⟩

/-- Witness for C7's amended theorem at the default ports: Chennai
(13.0827, 80.2707) and Singapore (1.3521, 103.8198) have valid
coordinates, and the source distance there equals the spec's
haversine. -/
theorem calculateDistance_props_witness :
    validCoord 13.0827 80.2707 ∧ validCoord 1.3521 103.8198 ∧
      calculateDistance ⟨13.0827, 80.2707⟩ ⟨1.3521, 103.8198⟩ =
        haversineNmSpec ⟨13.0827, 80.2707⟩ ⟨1.3521, 103.8198⟩ :=
  ⟨by norm_num [validCoord], by norm_num [validCoord],
   calculateDistance_props.2.2 ⟨13.0827, 80.2707⟩ ⟨1.3521, 103.8198⟩
     (by norm_num [validCoord]) (by norm_num [validCoord])⟩

end BluePath
